import Mathlib

/-!
Shallow embedding of the archive-backed module source loader of
`deno_doc_info_generator` (`src/deno_archive.rs`).

Modelling conventions:

* Rust `String` values (specifiers, cached source text, error payloads that
  embed user data) are modelled as their UTF-8 byte sequences, `List Nat`.
  `String::from_utf8` keeps the bytes unchanged and only validates them, so
  "decoded source text" is the entry's content byte list, guarded by a UTF-8
  validity check.
* The decompressed tar buffer is modelled as the list of raw records laid out
  in it.  A record is either a readable entry (path bytes, content bytes) or a
  record whose header fails to read (truncated or corrupt header).  The `tar`
  crate's entry iterator yields `Ok` entries until the first failing record,
  yields that one `Err`, and then ends (`EntriesFields::next` sets `done` on
  error); `rawItems` below materialises exactly that item sequence.
* The `tar` crate refuses to build an entry iterator unless the underlying
  reader is at position 0 (`"cannot call entries unless archive is at position
  0"`).  The cursor is modelled abstractly as `pos`, the number of raw records
  whose headers have been read; only `pos = 0` versus `pos ≠ 0` is observable.
* `tokio::sync::Mutex` in `DenoArchiveLoader` is held across the whole body of
  `load_source_code`, so every `load` call is an atomic transformer of the
  shared `DenoArchiveInner` state; `load` is modelled as such a transformer.
* `.unwrap()` on an `Err` and `todo!()` terminate the process; they are
  modelled by an explicit `panic` outcome distinct from the typed errors.
-/

/-- A readable file record of the decompressed tar buffer: raw path bytes and
content bytes, as `tar::Entry` exposes them. -/
structure TarEntry where
  path : List Nat
  content : List Nat
deriving DecidableEq, Repr

/-- A raw record of the decompressed tar buffer: either a readable entry or a
record whose header read fails with an I/O error. -/
inductive RawRecord
  | ok (entry : TarEntry)
  | ioErr (msg : String)
deriving DecidableEq, Repr

deriving instance DecidableEq for Except

/-- The item sequence produced by the `tar` crate's entry iterator over a
record list: `Ok` entries up to the first unreadable record, then that single
`Err`, then nothing (the iterator sets `done` after an error). -/
def rawItems : List RawRecord → List (Except String TarEntry)
  | [] => []
  | .ok e :: rest => .ok e :: rawItems rest
  | .ioErr m :: _ => [.error m]

/-- Error message the `tar` crate returns when `entries` is called with the
reader not at the start of the buffer. -/
def posErrMsg : String := "cannot call entries unless archive is at position 0"

/-- An archive containing the files of a Deno module
(`DenoArchive` in `src/deno_archive.rs`): the decompressed buffer's records
plus the cursor position (in records read). -/
structure DenoArchive where
  module_name : String
  version : String
  records : List RawRecord
  pos : Nat
deriving DecidableEq, Repr

/-- `DenoArchive::from_reader` after a successful gunzip: a freshly
constructed view over the decompressed records, cursor at the start.
(Decompression itself is outside the claims; the record list stands for the
decompressed buffer.) -/
def DenoArchive.from_reader (module_name version : String)
    (records : List RawRecord) : DenoArchive :=
  ⟨module_name, version, records, 0⟩

/-- `DenoArchive::entries` (line 40): `self.archive.entries()?.skip(1)`.
The `tar` crate's `entries` fails unless the cursor is at position 0;
otherwise the iterator yields the raw items with the first item skipped. -/
def DenoArchive.entriesList (a : DenoArchive) :
    Except String (List (Except String TarEntry)) :=
  if a.pos = 0 then .ok ((rawItems a.records).drop 1)
  else .error posErrMsg

/-- UTF-8 continuation byte (`0x80`–`0xBF`). -/
def isCont (b : Nat) : Bool := 128 ≤ b && b ≤ 191

/-- Validity of a byte sequence as UTF-8, exactly as Rust's
`String::from_utf8` checks it (including overlong-encoding and surrogate
rejection). -/
def isValidUtf8 : List Nat → Bool
  | [] => true
  | b :: rest =>
    if b ≤ 127 then isValidUtf8 rest
    else if 194 ≤ b && b ≤ 223 then
      match rest with
      | c1 :: r => isCont c1 && isValidUtf8 r
      | [] => false
    else if 224 ≤ b && b ≤ 239 then
      match rest with
      | c1 :: c2 :: r =>
        (if b = 224 then 160 ≤ c1 && c1 ≤ 191
         else if b = 237 then 128 ≤ c1 && c1 ≤ 159
         else isCont c1) && isCont c2 && isValidUtf8 r
      | _ => false
    else if 240 ≤ b && b ≤ 244 then
      match rest with
      | c1 :: c2 :: c3 :: r =>
        (if b = 240 then 144 ≤ c1 && c1 ≤ 191
         else if b = 244 then 128 ≤ c1 && c1 ≤ 143
         else isCont c1) && isCont c2 && isCont c3 && isValidUtf8 r
      | _ => false
    else false

/-- `DenoArchive::root_directory` (lines 50–69): reads the first entry after
the skipped record, captures its path (`path()?.to_str()` yields `none` for a
non-UTF-8 path), then rewinds the cursor; the `?` on `entries()` and on a
failing record returns early, skipping the rewind. -/
def DenoArchive.root_directory (a : DenoArchive) :
    Except String (Option (List Nat)) × DenoArchive :=
  if a.pos = 0 then
    match ((rawItems a.records).drop 1).head? with
    | none => (.ok none, { a with pos := 0 })
    | some (.error m) => (.error m, { a with pos := 2 })
    | some (.ok e) =>
      (.ok (if isValidUtf8 e.path then some e.path else none), { a with pos := 0 })
  else
    (.error posErrMsg, a)

/-- Path components of a byte path, as Rust's `std::path::Path::components`
normalizes them on Unix (byte 47 is the separator `/`, byte 46 is `.`). -/
inductive PathComp
  | rootDir
  | curDir
  | parentDir
  | normal (s : List Nat)
deriving DecidableEq, Repr

/-- Split a byte path on the separator byte 47. -/
def splitOnSlash : List Nat → List (List Nat)
  | [] => [[]]
  | b :: rest =>
    let s := splitOnSlash rest
    if b = 47 then [] :: s
    else
      match s with
      | [] => [[b]]
      | s0 :: ss => (b :: s0) :: ss

/-- A path segment as a component: empty and `.` segments are normalized
away, `..` is a parent-directory component. -/
def segToComp (s : List Nat) : Option PathComp :=
  if s = [] then none
  else if s = [46] then none
  else if s = [46, 46] then some .parentDir
  else some (.normal s)

/-- Rust keeps a leading `CurDir` component exactly when the path has no root
and starts with `.` followed by nothing or a separator. -/
def includeCurDir (p : List Nat) : Bool :=
  p.head? == some 46 && (p.length == 1 || p.get? 1 == some 47)

/-- `Path::components` on Unix: optional root, optional leading `.`, then the
normalized non-empty segments. -/
def pathComponents (p : List Nat) : List PathComp :=
  let body := (splitOnSlash p).filterMap segToComp
  if p.head? = some 47 then .rootDir :: body
  else if includeCurDir p then .curDir :: body
  else body

/-- `Path` equality in Rust compares the normalized component sequences; this
is the comparison `load_source_code` uses to match an entry path against the
specifier. -/
def pathEq (a b : List Nat) : Bool := pathComponents a == pathComponents b

/-- Model of `swc` `TsConfig` (its fields are irrelevant to the claims and
default to `false`). -/
structure TsConfig where
  tsx : Bool := false
  decorators : Bool := false
deriving DecidableEq, Repr

/-- `TsConfig::default()`. -/
def TsConfig.default : TsConfig := {}

/-- The syntax classification `load_source_code` returns:
`Syntax::Typescript(TsConfig::default())`. -/
inductive SyntaxKind
  | typescript (config : TsConfig)
deriving DecidableEq, Repr

/-- `deno_doc::DocError` as `load_source_code` produces it: `DocError::Io`
(carrying the I/O error message) or `DocError::Resolve` (carrying a message
that embeds the specifier bytes). -/
inductive DocError
  | io (msg : String)
  | resolve (msg : List Nat)
deriving DecidableEq, Repr

/-- Outcome of one `load_source_code` call: a typed success or error as the
caller sees it, or a process-terminating `.unwrap()` panic. -/
inductive LoadResult
  | ok (syn : SyntaxKind) (text : List Nat)
  | err (e : DocError)
  | panic
deriving DecidableEq, Repr

/-- Whether a load outcome is a success. -/
def LoadResult.isOk : LoadResult → Bool
  | .ok _ _ => true
  | _ => false

/-- Outcome of one `resolve` call: the resolved specifier, or the
process-terminating `todo!()` panic. -/
inductive ResolveResult
  | ok (specifier : List Nat)
  | panic
deriving DecidableEq, Repr

/-- The UTF-8 bytes of the fixed remote-URL prefix `"https://"`. -/
def httpsPrefix : List Nat := [104, 116, 116, 112, 115, 58, 47, 47]

/-- `DocFileLoader::resolve` for `DenoArchiveLoader` (lines 91–98): a
specifier starting with `"https://"` is returned unchanged; every other
specifier reaches `todo!()`.  The function reads no loader state at all
(modelled by taking none), so it performs no archive access. -/
def DenoArchiveLoader.resolve (specifier referrer : List Nat) : ResolveResult :=
  if httpsPrefix.isPrefixOf specifier then .ok specifier else .panic

/-- The UTF-8 bytes of `" not in archive"`, the suffix `load_source_code`
appends to the specifier in its `DocError::Resolve` message. -/
def notInArchive : List Nat :=
  [32, 110, 111, 116, 32, 105, 110, 32, 97, 114, 99, 104, 105, 118, 101]

/-- The shared loader state behind the `tokio::sync::Mutex`: the archive plus
the source cache (`HashMap<String, String>`, modelled as an association
list). -/
structure DenoArchiveInner where
  archive : DenoArchive
  cache : List (List Nat × List Nat)
deriving DecidableEq, Repr

/-- `HashMap::get`: the value stored under the key, if any. -/
def cacheGet (c : List (List Nat × List Nat)) (k : List Nat) :
    Option (List Nat) :=
  (c.find? (fun p => p.1 == k)).map (fun p => p.2)

/-- `HashMap::insert`: binds `k` to `v`, replacing any previous binding. -/
def cacheInsert (c : List (List Nat × List Nat)) (k v : List Nat) :
    List (List Nat × List Nat) :=
  (k, v) :: c.filter (fun p => !(p.1 == k))

/-- The lazy scan `entries().filter_map(Result::ok).find(...)` performs over
the post-skip item list: the first readable entry whose path equals the
specifier (unreadable items are dropped by `filter_map`), together with the
number of items the scan consumed from the iterator. -/
def findConsume (specifier : List Nat) :
    List (Except String TarEntry) → Option TarEntry × Nat
  | [] => (none, 0)
  | .error _ :: rest =>
    ((findConsume specifier rest).1, (findConsume specifier rest).2 + 1)
  | .ok e :: rest =>
    if pathEq e.path specifier then (some e, 1)
    else ((findConsume specifier rest).1, (findConsume specifier rest).2 + 1)

/-- `DocFileLoader::load_source_code` for `DenoArchiveLoader` (lines
100–142), as the atomic state transformer the mutex makes it: consult the
cache; on a miss enumerate from the cursor (which the `tar` crate only allows
at position 0), scan for the entry, validate its content as UTF-8
(`String::from_utf8(...).unwrap()` panics when invalid), and insert into the
cache only on a fresh success.  The scan advances the cursor by the records
it read and never rewinds it. -/
def DenoArchiveLoader.load (specifier : List Nat) (st : DenoArchiveInner) :
    LoadResult × DenoArchiveInner :=
  match cacheGet st.cache specifier with
  | some v => (.ok (.typescript TsConfig.default) v, st)
  | none =>
    if st.archive.pos = 0 then
      let items := (rawItems st.archive.records).drop 1
      let consumed :=
        if st.archive.records.isEmpty then 0
        else (findConsume specifier items).2 + 1
      let archive' : DenoArchive :=
        { st.archive with pos := st.archive.pos + consumed }
      match (findConsume specifier items).1 with
      | none =>
        (.err (.resolve (specifier ++ notInArchive)), { st with archive := archive' })
      | some e =>
        if isValidUtf8 e.content then
          (.ok (.typescript TsConfig.default) e.content,
           { archive := archive', cache := cacheInsert st.cache specifier e.content })
        else
          (.panic, { st with archive := archive' })
    else
      (.err (.io posErrMsg), st)

/-- Whether a raw record is a readable entry whose path matches the
specifier under `Path` equality. -/
def recMatches (specifier : List Nat) : RawRecord → Bool
  | .ok e => pathEq e.path specifier
  | .ioErr _ => false

/-- Concrete loader state for the memoization claim: synthetic first record
`p`, then entry `a` with content `h`. -/
def stMemo : DenoArchiveInner :=
  ⟨DenoArchive.from_reader "m" "v"
    [.ok ⟨[112], []⟩, .ok ⟨[97], [104]⟩], []⟩

/-- Concrete loader state with an entry `f` whose content byte `0xFF` is not
valid UTF-8. -/
def stUtf8 : DenoArchiveInner :=
  ⟨DenoArchive.from_reader "m" "v"
    [.ok ⟨[112], []⟩, .ok ⟨[102], [255]⟩], []⟩

/-- Concrete loader state for the not-found claim: only entry `a`. -/
def stMissing : DenoArchiveInner :=
  ⟨DenoArchive.from_reader "m" "v"
    [.ok ⟨[112], []⟩, .ok ⟨[97], [104]⟩], []⟩

/-- Concrete loader state for the not-found counterexample: entry `a`
loadable, specifier `m` matching no record. -/
def stNoMatch : DenoArchiveInner :=
  ⟨DenoArchive.from_reader "m" "v"
    [.ok ⟨[112], []⟩, .ok ⟨[97], [104]⟩], []⟩

/-- Concrete loader state for the failure-effects claim: only entry `a`. -/
def stPoison : DenoArchiveInner :=
  ⟨DenoArchive.from_reader "m" "v"
    [.ok ⟨[112], []⟩, .ok ⟨[97], [104]⟩], []⟩

/-- Concrete archive whose first real entry has the non-UTF-8 path byte
`0xFF`. -/
def archBadPath : DenoArchive :=
  DenoArchive.from_reader "m" "v" [.ok ⟨[112], []⟩, .ok ⟨[255], []⟩]

/-- Concrete loader state used to reach a consumed-cursor archive for the
root-prefix claim. -/
def stRootUsed : DenoArchiveInner :=
  ⟨DenoArchive.from_reader "m" "v"
    [.ok ⟨[112], []⟩, .ok ⟨[97], []⟩], []⟩

/-- Concrete archive for the root-prefix witness: entries `p` then `a`. -/
def archRoot : DenoArchive :=
  DenoArchive.from_reader "m" "v" [.ok ⟨[112], []⟩, .ok ⟨[97], []⟩]

/-- Concrete loader state used to reach a consumed cursor for the
enumeration claim: entries `p`, `a`, `b`. -/
def stEnum : DenoArchiveInner :=
  ⟨DenoArchive.from_reader "m" "v"
    [.ok ⟨[112], []⟩, .ok ⟨[97], [104]⟩, .ok ⟨[98], [105]⟩], []⟩

/-- Concrete archive with an off-start cursor for the enumeration witness. -/
def archOff : DenoArchive := ⟨"m", "v", [.ok ⟨[112], []⟩], 1⟩

/-- Concrete loader state for the two-sequential-loads claim: entries `a`
and `b`, both valid. -/
def stTwo : DenoArchiveInner :=
  ⟨DenoArchive.from_reader "m" "v"
    [.ok ⟨[112], []⟩, .ok ⟨[97], [104]⟩, .ok ⟨[98], [105]⟩], []⟩

/-- Concrete loader state whose second raw record fails to read and whose
third is the readable target `t`. -/
def stSkip : DenoArchiveInner :=
  ⟨DenoArchive.from_reader "m" "v"
    [.ok ⟨[112], []⟩, .ioErr "corrupt header", .ok ⟨[116], [104]⟩], []⟩

/-- The same target entry in an archive without the failing record, showing
it is otherwise loadable. -/
def stSkipOk : DenoArchiveInner :=
  ⟨DenoArchive.from_reader "m" "v"
    [.ok ⟨[112], []⟩, .ok ⟨[116], [104]⟩], []⟩

theorem cacheGet_cacheInsert (c : List (List Nat × List Nat)) (k v : List Nat) :
    cacheGet (cacheInsert c k v) k = some v := by
  simp [cacheGet, cacheInsert]

theorem rawItems_map_ok : ∀ rs : List TarEntry,
    rawItems (rs.map RawRecord.ok) = rs.map Except.ok
  | [] => rfl
  | e :: rest => by simp [rawItems, rawItems_map_ok rest]

theorem rawItems_ok_mem {e : TarEntry} :
    ∀ {records : List RawRecord},
      Except.ok e ∈ rawItems records → RawRecord.ok e ∈ records := by
  intro records
  induction records with
  | nil => simp [rawItems]
  | cons r rest ih =>
    cases r with
    | ok e' =>
      intro h
      simp only [rawItems, List.mem_cons] at h
      rcases h with h | h
      · obtain rfl : e = e' := by simpa using h
        exact List.mem_cons_self _ _
      · exact List.mem_cons_of_mem _ (ih h)
    | ioErr m =>
      intro h
      simp [rawItems] at h

theorem findConsume_fst_none (s : List Nat) :
    ∀ items : List (Except String TarEntry),
      (∀ e, Except.ok e ∈ items → pathEq e.path s = false) →
      (findConsume s items).1 = none
  | [], _ => rfl
  | .error m :: rest, h => by
    simp only [findConsume]
    exact findConsume_fst_none s rest fun e he => h e (List.mem_cons_of_mem _ he)
  | .ok e :: rest, h => by
    have hne : pathEq e.path s = false := h e (List.mem_cons_self _ _)
    simp only [findConsume, hne, Bool.false_eq_true, if_false]
    exact findConsume_fst_none s rest fun e' he' => h e' (List.mem_cons_of_mem _ he')

theorem load_cache_hit (s : List Nat) (st : DenoArchiveInner) (v : List Nat)
    (hc : cacheGet st.cache s = some v) :
    DenoArchiveLoader.load s st = (.ok (.typescript TsConfig.default) v, st) := by
  simp [DenoArchiveLoader.load, hc]

theorem load_ok_spec (s : List Nat) (st : DenoArchiveInner) (syn : SyntaxKind)
    (t : List Nat) (h : (DenoArchiveLoader.load s st).1 = .ok syn t) :
    syn = .typescript TsConfig.default ∧
    cacheGet (DenoArchiveLoader.load s st).2.cache s = some t := by
  rcases hc : cacheGet st.cache s with _ | v
  · simp only [DenoArchiveLoader.load, hc] at h ⊢
    by_cases hp : st.archive.pos = 0
    · rw [if_pos hp] at h ⊢
      rcases hf : (findConsume s ((rawItems st.archive.records).drop 1)).1 with _ | e
      · simp only [hf] at h
        simp at h
      · simp only [hf] at h ⊢
        by_cases hv : isValidUtf8 e.content = true
        · rw [if_pos hv] at h ⊢
          simp only at h
          obtain ⟨hsyn, ht⟩ := LoadResult.ok.inj h
          exact ⟨hsyn.symm, by simpa [← ht] using cacheGet_cacheInsert st.cache s e.content⟩
        · rw [if_neg hv] at h
          simp at h
    · rw [if_neg hp] at h
      simp at h
  · have heq := load_cache_hit s st v hc
    rw [heq] at h ⊢
    simp only at h
    obtain ⟨hsyn, ht⟩ := LoadResult.ok.inj h
    exact ⟨hsyn.symm, by simp [hc, ht]⟩

theorem load_isOk_or_cache_eq (s : List Nat) (st : DenoArchiveInner) :
    ((DenoArchiveLoader.load s st).1).isOk = true ∨
    ((DenoArchiveLoader.load s st).2).cache = st.cache := by
  rcases hc : cacheGet st.cache s with _ | v
  · simp only [DenoArchiveLoader.load, hc]
    by_cases hp : st.archive.pos = 0
    · rw [if_pos hp]
      rcases hf : (findConsume s ((rawItems st.archive.records).drop 1)).1 with _ | e
      · simp only [hf]
        right
        trivial
      · simp only [hf]
        by_cases hv : isValidUtf8 e.content = true
        · rw [if_pos hv]
          left
          trivial
        · rw [if_neg hv]
          right
          trivial
    · rw [if_neg hp]
      right
      trivial
  · simp only [DenoArchiveLoader.load, hc]
    left
    trivial

/-- C1: a specifier that one `load` call returned successfully is in the
Source Cache with exactly the returned text, and a second `load` with the
same specifier returns the byte-identical text together with the entire
loader state unchanged: the cache (hence its size) is untouched and the
archive cursor is not moved, the call being served from the cache alone. -/
theorem load_idempotent_memoization (s : List Nat) (st : DenoArchiveInner)
    (syn : SyntaxKind) (t : List Nat)
    (h : (DenoArchiveLoader.load s st).1 = .ok syn t) :
    cacheGet (DenoArchiveLoader.load s st).2.cache s = some t ∧
    DenoArchiveLoader.load s (DenoArchiveLoader.load s st).2 =
      (.ok syn t, (DenoArchiveLoader.load s st).2) := by
  obtain ⟨hsyn, hcache⟩ := load_ok_spec s st syn t h
  refine ⟨hcache, ?_⟩
  rw [hsyn]
  exact load_cache_hit s _ t hcache

/-- Witness for C1: loading entry `a` of a concrete archive and loading it
again. -/
theorem load_idempotent_memoization_witness :
    cacheGet (DenoArchiveLoader.load [97] stMemo).2.cache [97] = some [104] ∧
    DenoArchiveLoader.load [97] (DenoArchiveLoader.load [97] stMemo).2 =
      (.ok (.typescript TsConfig.default) [104],
       (DenoArchiveLoader.load [97] stMemo).2) :=
  load_idempotent_memoization [97] stMemo (.typescript TsConfig.default) [104]
    (by decide)

/-- C2: the claim says content that is not well-formed UTF-8 makes `load`
fail with a typed DecodeError returned to the caller; the code instead calls
`String::from_utf8(buffer).unwrap()` (line 132), which panics and terminates
the process.  Evaluating the model at an archive whose entry `f` has the
invalid content byte `0xFF`: the outcome is the panic, not a typed error. -/
theorem load_invalid_utf8_panics :
    (DenoArchiveLoader.load [102] stUtf8).1 = LoadResult.panic := by decide

/-- C3 counterexample: the specifier `m` matches no record of `stNoMatch`'s
archive, yet after an earlier cache-miss load of the valid entry `a` (the
loader's normal first step) the consumed cursor makes `load` of `m` return
the tar position I/O error — not a NotFound error naming `m` — because the
scan never rewinds the cursor and `entries()` then refuses to enumerate.
The first conjunct records that `m` indeed matches no record. -/
theorem load_not_found_after_scan_cex :
    stNoMatch.archive.records.all (fun r => !recMatches [109] r) = true ∧
    (DenoArchiveLoader.load [109]
        (DenoArchiveLoader.load [97] stNoMatch).2).1 = .err (.io posErrMsg) ∧
    (DenoArchiveLoader.load [109]
        (DenoArchiveLoader.load [97] stNoMatch).2).1 ≠
      .err (.resolve ([109] ++ notInArchive)) := by decide

/-- C3 (amended): a specifier that is not cached and matches no record of
the archive, loaded with the archive cursor at the start of the buffer (as
on a freshly constructed loader), makes `load` return `DocError::Resolve`
whose message is the specifier followed by `" not in archive"` — in
particular the message names the missing specifier as its prefix.  (At a
consumed-cursor state, reachable after any earlier cache-miss load, the same
missing specifier instead gets the `DocError::Io` position error, which does
not name it.) -/
theorem load_not_found_names_specifier (s : List Nat) (st : DenoArchiveInner)
    (hcache : cacheGet st.cache s = none)
    (hpos : st.archive.pos = 0)
    (hnone : st.archive.records.all (fun r => !recMatches s r) = true) :
    (DenoArchiveLoader.load s st).1 = .err (.resolve (s ++ notInArchive)) ∧
    s <+: s ++ notInArchive := by
  have hall : ∀ e, Except.ok e ∈ (rawItems st.archive.records).drop 1 →
      pathEq e.path s = false := by
    intro e he
    have hmem : RawRecord.ok e ∈ st.archive.records :=
      rawItems_ok_mem (List.drop_subset _ _ he)
    have hb := (List.all_eq_true.1 hnone) _ hmem
    simpa [recMatches] using hb
  have hf := findConsume_fst_none s _ hall
  refine ⟨?_, List.prefix_append _ _⟩
  simp only [DenoArchiveLoader.load, hcache]
  rw [if_pos hpos]
  simp only [hf]

/-- Witness for C3: specifier `m` against a concrete archive containing only
`p` and `a`. -/
theorem load_not_found_names_specifier_witness :
    (DenoArchiveLoader.load [109] stMissing).1 =
      .err (.resolve ([109] ++ notInArchive)) ∧
    [109] <+: [109] ++ notInArchive :=
  load_not_found_names_specifier [109] stMissing (by decide) (by decide)
    (by decide)

/-- C4 counterexample: on a concrete archive holding entry `a`, the failing
`load` of the absent specifier `m` returns NotFound and leaves the cache
empty, yet the subsequent unrelated lookup of `a` — which succeeds from a
fresh loader — now fails with an I/O error, because the failed scan consumed
the archive cursor and nothing rewinds it.  So a failed load does affect
subsequent unrelated lookups, contrary to the claim. -/
theorem load_failure_poisons_cursor_cex :
    (DenoArchiveLoader.load [109] stPoison).1 =
      .err (.resolve ([109] ++ notInArchive)) ∧
    (DenoArchiveLoader.load [109] stPoison).2.cache = [] ∧
    (DenoArchiveLoader.load [97] stPoison).1 =
      .ok (.typescript TsConfig.default) [104] ∧
    (DenoArchiveLoader.load [97]
        (DenoArchiveLoader.load [109] stPoison).2).1 =
      .err (.io posErrMsg) := by decide

/-- C4 (amended): whenever a `load` call fails — entry not found, the
enumeration refusal, or the decode panic — the Source Cache is left exactly
unchanged: no entry is inserted and no existing entry is modified (cache
hits therefore stay intact; it is the archive cursor, not the cache, that a
failed scan consumes). -/
theorem load_failure_leaves_cache_unchanged (s : List Nat)
    (st : DenoArchiveInner)
    (h : ((DenoArchiveLoader.load s st).1).isOk = false) :
    ((DenoArchiveLoader.load s st).2).cache = st.cache := by
  rcases load_isOk_or_cache_eq s st with hok | hcc
  · rw [hok] at h
    cases h
  · exact hcc

/-- Witness for C4: the failing not-found load of `m` leaves the concrete
cache unchanged. -/
theorem load_failure_leaves_cache_unchanged_witness :
    ((DenoArchiveLoader.load [109] stPoison).2).cache = stPoison.cache :=
  load_failure_leaves_cache_unchanged [109] stPoison (by decide)

/-- C5 counterexample: the archive `archBadPath` has a real entry after the
skipped record (its path is the single non-UTF-8 byte `0xFF`), yet
`root_directory` returns `none` rather than that entry's path, because
`path()?.to_str()` fails on a non-UTF-8 path; and on the reachable archive
state left behind by a `load` scan (cursor no longer at the start),
`root_directory` fails with an I/O error instead of returning the first
entry's path and rewinding. -/
theorem root_directory_cex :
    (archBadPath.root_directory).1 = .ok none ∧
    ((rawItems archBadPath.records).drop 1).head? =
      some (Except.ok ⟨[255], []⟩) ∧
    (DenoArchiveLoader.load [97] stRootUsed).2.archive.pos ≠ 0 ∧
    ((DenoArchiveLoader.load [97] stRootUsed).2.archive.root_directory).1 =
      .error posErrMsg := by decide

/-- C5 (amended): for an archive whose cursor is at the start, if the first
record after the skipped one is readable and its path is valid UTF-8,
`root_directory` returns that path and rewinds the cursor to the start, so a
subsequent full enumeration equals that of a freshly constructed view over
the same bytes; if there is no record beyond the skipped one it returns
`none` (path not valid UTF-8 also yields `none`; an unreadable record or an
off-start cursor yields an error without rewinding). -/
theorem root_directory_amended (a : DenoArchive) (h : a.pos = 0) :
    (∀ e : TarEntry,
        ((rawItems a.records).drop 1).head? = some (Except.ok e) →
        isValidUtf8 e.path = true →
        a.root_directory = (Except.ok (some e.path), { a with pos := 0 }) ∧
        DenoArchive.entriesList { a with pos := 0 } =
          DenoArchive.entriesList
            (DenoArchive.from_reader a.module_name a.version a.records)) ∧
    (((rawItems a.records).drop 1).head? = none →
        a.root_directory = (Except.ok none, { a with pos := 0 })) := by
  constructor
  · intro e he hv
    constructor
    · simp only [DenoArchive.root_directory]
      rw [if_pos h]
      simp only [he]
      rw [if_pos hv]
    · have harch : ({ a with pos := 0 } : DenoArchive) =
          DenoArchive.from_reader a.module_name a.version a.records := by
        cases a
        rfl
      rw [harch]
  · intro he
    simp only [DenoArchive.root_directory]
    rw [if_pos h]
    simp only [he]

/-- Witness for C5 (amended): concrete archive with real entry `a` after the
skipped record `p`. -/
theorem root_directory_amended_witness :
    archRoot.root_directory =
      (Except.ok (some [97]), { archRoot with pos := 0 }) ∧
    DenoArchive.entriesList { archRoot with pos := 0 } =
      DenoArchive.entriesList
        (DenoArchive.from_reader archRoot.module_name archRoot.version
          archRoot.records) :=
  (root_directory_amended archRoot rfl).1 ⟨[97], []⟩ (by decide) (by decide)

/-- C6: a specifier beginning with the fixed remote-URL prefix `"https://"`
is returned unchanged by `resolve`, whatever the referrer; the model's
`resolve` takes no loader state at all, mirroring that the code touches no
archive on this path. -/
theorem resolve_https_identity (s r : List Nat) (h : httpsPrefix <+: s) :
    DenoArchiveLoader.resolve s r = .ok s := by
  have hb : httpsPrefix.isPrefixOf s = true := List.isPrefixOf_iff_prefix.2 h
  simp [DenoArchiveLoader.resolve, hb]

/-- Witness for C6: a concrete remote specifier. -/
theorem resolve_https_identity_witness :
    DenoArchiveLoader.resolve (httpsPrefix ++ [97]) [] =
      .ok (httpsPrefix ++ [97]) :=
  resolve_https_identity (httpsPrefix ++ [97]) [] ⟨[97], rfl⟩

/-- C7: the claim says a specifier without the remote-URL prefix yields an
explicitly modeled typed error (UnsupportedSpecifier); the code instead
reaches `todo!()` (line 97), which panics and terminates the process.
Evaluating the model at the relative specifier `"./mod.ts"`: the outcome is
the panic, not a typed error. -/
theorem resolve_relative_specifier_todo :
    DenoArchiveLoader.resolve [46, 47, 109, 111, 100, 46, 116, 115] [109] =
      ResolveResult.panic := by decide

/-- C8 counterexample: after a successful `load` the archive's cursor is no
longer at the start, and at that reachable state the enumeration does not
yield the records from the current position — it fails with the tar
position error, so "starting from the current cursor position" fails for
every position other than the start. -/
theorem entries_from_cursor_cex :
    (DenoArchiveLoader.load [97] stEnum).2.archive.pos ≠ 0 ∧
    ((DenoArchiveLoader.load [97] stEnum).2.archive).entriesList =
      .error posErrMsg ∧
    ((DenoArchiveLoader.load [97] stEnum).2.archive).entriesList ≠
      .ok ((rawItems
        (DenoArchiveLoader.load [97] stEnum).2.archive.records).drop 1) := by
  decide

/-- C8 (amended): for an archive whose cursor is at the start of the buffer,
entry enumeration yields the archive's raw records with the first record
unconditionally omitted, in archive order; with the cursor anywhere else the
operation fails with an I/O error rather than enumerating from that
position. -/
theorem entries_skip_first_amended (a : DenoArchive) :
    (∀ rs : List TarEntry, a.records = rs.map RawRecord.ok → a.pos = 0 →
        a.entriesList = Except.ok ((rs.drop 1).map Except.ok)) ∧
    (a.pos ≠ 0 → a.entriesList = Except.error posErrMsg) := by
  constructor
  · intro rs hrec hpos
    simp only [DenoArchive.entriesList]
    rw [if_pos hpos, hrec, rawItems_map_ok, List.map_drop]
  · intro hpos
    simp only [DenoArchive.entriesList]
    rw [if_neg hpos]

/-- Witness for C8 (amended): a fresh two-record archive enumerates to its
second record alone; an off-start archive fails with the position error. -/
theorem entries_skip_first_amended_witness :
    (DenoArchive.from_reader "m" "v"
        [.ok ⟨[112], []⟩, .ok ⟨[97], [104]⟩]).entriesList =
      Except.ok (([⟨[112], []⟩, ⟨[97], [104]⟩] : List TarEntry).drop 1
        |>.map Except.ok) ∧
    archOff.entriesList = Except.error posErrMsg :=
  ⟨(entries_skip_first_amended _).1 [⟨[112], []⟩, ⟨[97], [104]⟩] rfl rfl,
   (entries_skip_first_amended archOff).2 (by decide)⟩

/-- C9: the lock is indeed held across the whole locate-and-decode sequence,
which in the model makes each `load` an atomic state transformer, so two
concurrent loads execute as one of the two serial orders.  But in either
order the claim's outcome fails: the first cache-miss load of `a` succeeds
and leaves the archive cursor consumed, and the second load, of the equally
valid specifier `b`, then fails with the tar position I/O error instead of
succeeding — the scan never rewinds the shared cursor. -/
theorem two_sequential_loads_second_fails :
    (DenoArchiveLoader.load [97] stTwo).1 =
      .ok (.typescript TsConfig.default) [104] ∧
    (DenoArchiveLoader.load [98]
        (DenoArchiveLoader.load [97] stTwo).2).1 =
      .err (.io posErrMsg) := by decide

/-- C10 counterexample: in `stSkip` the record before the target `t` fails
to read; the enumeration stops at that failing record, so the load of the
later, readable entry `t` fails with NotFound — even though the same entry
loads fine from an archive without the failing record.  An I/O error on an
earlier record therefore does cause the load of a later readable entry to
fail, contrary to the claim. -/
theorem load_after_bad_record_cex :
    (DenoArchiveLoader.load [116] stSkip).1 =
      .err (.resolve ([116] ++ notInArchive)) ∧
    (DenoArchiveLoader.load [116] stSkipOk).1 =
      .ok (.typescript TsConfig.default) [104] := by decide

/-- C10 (amended): a record that fails to read is silently dropped by the
scan rather than surfaced: when the cursor is at the start (so enumeration
happens at all), `load` never returns an I/O error — an unreadable target,
like any specifier the scan cannot reach, is reported as NotFound instead.
But the enumeration ends at the first unreadable record, so an earlier I/O
error makes later readable entries unreachable (reported NotFound), rather
than leaving them loadable. -/
theorem load_no_io_error_at_start (s : List Nat) (st : DenoArchiveInner)
    (h : st.archive.pos = 0) (m : String) :
    (DenoArchiveLoader.load s st).1 ≠ .err (.io m) := by
  rcases hc : cacheGet st.cache s with _ | v
  · simp only [DenoArchiveLoader.load, hc]
    rw [if_pos h]
    rcases hf : (findConsume s ((rawItems st.archive.records).drop 1)).1 with _ | e
    · simp [hf]
    · simp only [hf]
      by_cases hv : isValidUtf8 e.content = true
      · rw [if_pos hv]
        simp
      · rw [if_neg hv]
        simp
  · simp [DenoArchiveLoader.load, hc]

/-- Witness for C10 (amended): the load of the unreachable target `t` in
`stSkip` is not an I/O error. -/
theorem load_no_io_error_at_start_witness :
    (DenoArchiveLoader.load [116] stSkip).1 ≠ .err (.io "broken pipe") :=
  load_no_io_error_at_start [116] stSkip (by decide) "broken pipe"
